import Mathlib

/-!
Shallow embedding of the devbot AI-assistant pipeline (a Slack bot forwarding
messages to a completion endpoint, with canned responses, channel monitors and
CRM/issue-tracker side actions) together with proofs about the embedded
operations.

Conventions used throughout:
* JavaScript strings are Lean `String`s; `toLowerCase`, `trim`, `split`, `startsWith` and the like are embedded as character-list operations (`jsToLowerCase`, ...) so that they compute by kernel reduction.
* JavaScript `undefined`/missing fields are `Option` values; JS truthiness of a
  string-valued field (`undefined`, `null` and `""` are falsy) is made explicit
  where the source relies on it.
* ISO-8601 `createdAt` timestamps are abstracted to `Nat` (ISO strings compare
  the same way as the instants they denote, which is all the source uses).
* External collaborators (the key-value store contents, the Slack history API,
  the Salesforce REST API, the completion endpoint) are passed in explicitly as
  data / oracle functions; side-effecting calls are recorded in an event trace.
-/

namespace DevBot

/-- Does `needle` occur (contiguously) in `hay`?  Helper for `strIncludes`. -/
def listContainsSeq (needle : List Char) : List Char → Bool
  | [] => needle.isEmpty
  | c :: t => List.isPrefixOf needle (c :: t) || listContainsSeq needle t

/-- JS substring containment: `hay.includes(needle)`. -/
def strIncludes (hay needle : String) : Bool :=
  listContainsSeq needle.toList hay.toList

/-- JS `s.toLowerCase()` (character-wise, which is what the ASCII triggers and
keywords the source compares rely on). -/
def jsToLowerCase (s : String) : String :=
  String.mk (s.toList.map Char.toLower)

/-- JS `s.startsWith(p)`. -/
def jsStartsWith (s p : String) : Bool :=
  List.isPrefixOf p.toList s.toList

/-- JS `s.endsWith(p)`. -/
def jsEndsWith (s p : String) : Bool :=
  List.isPrefixOf p.toList.reverse s.toList.reverse

/-- JS `s.slice(0, -n)` (drop the last `n` characters). -/
def jsDropRight (s : String) (n : Nat) : String :=
  String.mk (s.toList.take (s.toList.length - n))

/-- JS `s.trim()`. -/
def jsTrim (s : String) : String :=
  String.mk (((s.toList.dropWhile Char.isWhitespace).reverse.dropWhile
    Char.isWhitespace).reverse)

/-- JS `s.split(' ')` (split on every single space; adjacent separators and
edges produce empty pieces, as in JS). -/
def splitOnCharList (sep : Char) : List Char → List (List Char)
  | [] => [[]]
  | c :: t =>
    let r := splitOnCharList sep t
    if c = sep then [] :: r
    else
      match r with
      | h :: rt => (c :: h) :: rt
      | [] => [[c]]

/-- JS `s.split(' ')` on strings. -/
def jsSplitSpace (s : String) : List String :=
  (splitOnCharList ' ' s.toList).map String.mk

/-- JS `parts.join(' ')`. -/
def jsJoinSpace (parts : List String) : String :=
  String.mk (List.intercalate [' '] (parts.map String.toList))

/-- JS truthiness of an optional string field (`undefined` and `""` are falsy). -/
def jsTruthyStr : Option String → Bool
  | some s => s ≠ ""
  | none => false

/-- JS string interpolation of a possibly-`undefined` value. -/
def jsShowOpt : Option String → String
  | some s => s
  | none => "undefined"

/-! ## Canned responses (key-phrase responses)

Source: `redisService.getAllKeyPhraseResponses` (store read, newest-first sort)
and `app.js` `checkKeyPhraseResponse` (first-enabled-match scan). -/

/-- A stored `CannedResponse` record.  `enabled` is `Option Bool` because the
source guards with `r.enabled !== false` (an absent field counts as enabled). -/
structure CannedResponse where
  id : String
  triggerPhrase : String
  responseText : String
  enabled : Option Bool
  createdAt : Nat
deriving DecidableEq, Repr

/-- Newest-first order used by the store read:
`(a, b) => new Date(b.createdAt) - new Date(a.createdAt)`. -/
def crGE (a b : CannedResponse) : Prop := b.createdAt ≤ a.createdAt

instance : DecidableRel crGE := fun _ _ => Nat.decLe _ _

instance : IsTotal CannedResponse crGE :=
  ⟨fun a b => (Nat.le_total a.createdAt b.createdAt).symm⟩

instance : IsTrans CannedResponse crGE :=
  ⟨fun _ _ _ h1 h2 => Nat.le_trans h2 h1⟩

/-- `redisService.getAllKeyPhraseResponses`: reads every record of the team and
sorts newest-first by `createdAt` (JS `sort` is stable, as is `insertionSort`,
so the two agree on the whole output, not just on sortedness). -/
def getAllKeyPhraseResponses (records : List CannedResponse) : List CannedResponse :=
  List.insertionSort crGE records

/-- One record's trigger test from the loop body of `checkKeyPhraseResponse`:
exact lower-cased equality, or, when the trigger ends in `*`, a lower-cased
prefix match against the trigger with the `*` stripped. -/
def matchesTrigger (messageText : String) (r : CannedResponse) : Bool :=
  let trigger := jsToLowerCase r.triggerPhrase
  let m := jsToLowerCase messageText
  (m == trigger) || (jsEndsWith trigger "*" && jsStartsWith m (jsDropRight trigger 1))

/-- `checkKeyPhraseResponse`: filter to enabled records (`enabled !== false`),
then return the first record of the (newest-first) iteration order whose
trigger matches. -/
def checkKeyPhraseResponse (messageText : String) (records : List CannedResponse) :
    Option CannedResponse :=
  let responses := getAllKeyPhraseResponses records
  let enabledResponses := responses.filter (fun r => r.enabled != some false)
  enabledResponses.find? (fun r => matchesTrigger messageText r)

/-- Outcome of one turn of the `message` event handler for an AI-assistant
thread (`channel_type === 'im' && thread_ts`): either a canned response is sent
and the handler returns before any completion call, or the turn falls through
to the Completion Client. -/
inductive TurnAction where
  | canned (r : CannedResponse)
  | completion
deriving DecidableEq, Repr

/-- Routing decision of the `message` handler: with a team id, a key-phrase
match short-circuits (the handler `return`s before `callGrokAPI`); otherwise
the turn proceeds to the completion call. -/
def routeImThreadMessage (text : String) (teamId : Option String)
    (records : List CannedResponse) : TurnAction :=
  match teamId with
  | some _ =>
    match checkKeyPhraseResponse text records with
    | some r => .canned r
    | none => .completion
  | none => .completion

/-! ## Monitored channels

Source: `redisService.js` `addMonitoredChannel`, `updateMonitoredChannel`,
`removeMonitoredChannel`.  The stored per-team list is passed in and the new
stored list is returned (the store write itself is the external collaborator).
Wall-clock timestamps (`new Date().toISOString()`) are passed in as `now`. -/

/-- A stored monitored-channel entry. -/
structure MonitoredChannel where
  channelId : String
  channelName : String
  responseType : String
  enabled : Bool
  autoCreateJiraTickets : Bool
  addedAt : String
  addedBy : Option String
  updatedAt : Option String
deriving DecidableEq, Repr

/-- The `channelData` argument of `addMonitoredChannel`; fields other than the
ids may be absent in the JS object. -/
structure ChannelData where
  channelId : String
  channelName : String
  responseType : Option String
  enabled : Option Bool
  autoCreateJiraTickets : Option Bool
  addedBy : Option String
deriving DecidableEq, Repr

/-- Result shape of the monitored-channel service functions. -/
structure OpResult where
  success : Bool
  error : Option String := none
  channel : Option MonitoredChannel := none
deriving DecidableEq, Repr

/-- JS `channelData.responseType || 'analytical'` (empty string is falsy). -/
def responseTypeOrDefault : Option String → String
  | some s => if s = "" then "analytical" else s
  | none => "analytical"

/-- `addMonitoredChannel`: reject at 5 entries, reject duplicate `channelId`,
otherwise append the normalized new entry. -/
def addMonitoredChannel (now : String) (channels : List MonitoredChannel)
    (channelData : ChannelData) : OpResult × List MonitoredChannel :=
  if channels.length ≥ 5 then
    ({ success := false, error := some "Maximum of 5 channels can be monitored" }, channels)
  else if channels.any (fun c => c.channelId == channelData.channelId) then
    ({ success := false, error := some "Channel is already being monitored" }, channels)
  else
    let newChannel : MonitoredChannel :=
      { channelId := channelData.channelId
        channelName := channelData.channelName
        responseType := responseTypeOrDefault channelData.responseType
        enabled := channelData.enabled != some false
        autoCreateJiraTickets := channelData.autoCreateJiraTickets == some true
        addedAt := now
        addedBy := channelData.addedBy
        updatedAt := none }
    ({ success := true, channel := some newChannel }, channels ++ [newChannel])

/-- The `updates` object accepted by `updateMonitoredChannel` as used by the
administrative surface (spread over the existing entry; present fields win). -/
structure ChannelUpdates where
  responseType : Option String := none
  enabled : Option Bool := none
  autoCreateJiraTickets : Option Bool := none
deriving DecidableEq, Repr

/-- JS `{...channels[i], ...updates, updatedAt: now}`. -/
def applyChannelUpdates (now : String) (c : MonitoredChannel) (u : ChannelUpdates) :
    MonitoredChannel :=
  { c with
    responseType := u.responseType.getD c.responseType
    enabled := u.enabled.getD c.enabled
    autoCreateJiraTickets := u.autoCreateJiraTickets.getD c.autoCreateJiraTickets
    updatedAt := some now }

/-- `updateMonitoredChannel`: find by `channelId`, merge updates in place. -/
def updateMonitoredChannel (now : String) (channels : List MonitoredChannel)
    (channelId : String) (u : ChannelUpdates) : OpResult × List MonitoredChannel :=
  match channels.findIdx? (fun c => c.channelId == channelId) with
  | none => ({ success := false, error := some "Channel not found" }, channels)
  | some i =>
    match channels[i]? with
    | none => ({ success := false, error := some "Channel not found" }, channels)
    | some c =>
      let updated := applyChannelUpdates now c u
      ({ success := true, channel := some updated }, channels.set i updated)

/-- `removeMonitoredChannel`: filter out the entry by `channelId`. -/
def removeMonitoredChannel (channels : List MonitoredChannel) (channelId : String) :
    OpResult × List MonitoredChannel :=
  let filteredChannels := channels.filter (fun c => ¬ c.channelId == channelId)
  if channels.length = filteredChannels.length then
    ({ success := false, error := some "Channel not found" }, channels)
  else
    ({ success := true }, filteredChannels)

/-! ## Conversation-context assembly

Source: `app.js` `getConversationHistory` (threaded contexts, fetched via
`conversations.replies` with `limit: 20`, which the platform returns
oldest-first) and the flat-DM branch of the `message` handler (fetched via
`conversations.history` with `limit: 10`, returned newest-first and reversed
by the handler). -/

/-- A raw platform history entry as consumed by the assembler. -/
structure SlackMessage where
  ts : String
  bot_id : Option String
  text : String
deriving DecidableEq, Repr

/-- Message role in a completion request. -/
inductive Role where
  | user
  | assistant
deriving DecidableEq, Repr

/-- `{role, content}` entry of a `ConversationWindow`. -/
structure ChatMsg where
  role : Role
  content : String
deriving DecidableEq, Repr

/-- Role classification: `message.bot_id ? 'assistant' : 'user'`. -/
def toChatMsg (m : SlackMessage) : ChatMsg :=
  { role := if jsTruthyStr m.bot_id then .assistant else .user, content := m.text }

/-- `getConversationHistory` applied to the fetched reply list: skip the entry
whose `ts` equals the *thread* timestamp (the thread's root message), classify
the rest by authorship, keep fetch order. -/
def getConversationHistory (fetched : List SlackMessage) (threadTs : String) :
    List ChatMsg :=
  (fetched.filter (fun m => m.ts != threadTs)).map toChatMsg

/-- Flat-DM context assembly from the `message` handler: skip the entry whose
`ts` equals the triggering event's `ts`, classify, then reverse the
newest-first fetch into chronological order. -/
def dmConversationHistory (fetched : List SlackMessage) (eventTs : String) :
    List ChatMsg :=
  ((fetched.filter (fun m => m.ts != eventTs)).map toChatMsg).reverse

/-! ## Regex-based slot extraction

Source: `app.js` `extractLeadData`.  The three regexes it uses are embedded as
small ASTs over an explicit backtracking matcher with JavaScript semantics:
leftmost match, alternatives tried in order, greedy quantifiers give back on
failure, lazy quantifiers expand on failure, `/i` compares case-insensitively.
Each quantified subpattern in these regexes is a plain character class, so the
quantifier loops are bounded by the length of the class run at the current
position and the matcher is structurally recursive. -/

/-- Regex AST (just the constructs the three source regexes use). -/
inductive RE where
  /-- A case-insensitive literal. -/
  | lit : List Char → RE
  /-- One character of a class. -/
  | cls : (Char → Bool) → RE
  | cat : RE → RE → RE
  | alt : RE → RE → RE
  /-- Greedy `+` of a character class. -/
  | plusGreedy : (Char → Bool) → RE
  /-- Greedy `*` of a character class. -/
  | starGreedy : (Char → Bool) → RE
  /-- End-of-input anchor `$`. -/
  | eos : RE

/-- Length of the maximal run of class characters at the front. -/
def runLen (cc : Char → Bool) : List Char → Nat
  | [] => 0
  | c :: cs => if cc c then runLen cc cs + 1 else 0

/-- Case-insensitive literal-prefix match; returns the rest on success. -/
def ciPrefix : List Char → List Char → Option (List Char)
  | [], s => some s
  | _ :: _, [] => none
  | p :: ps, c :: cs => if p.toLower = c.toLower then ciPrefix ps cs else none

/-- Backtracking matcher in continuation style.  The continuation receives the
unconsumed input; alternatives and quantifier split points are tried in the
order a JavaScript engine tries them. -/
def mrun : RE → List Char → (List Char → Option α) → Option α
  | .lit p, s, k =>
    match ciPrefix p s with
    | some rest => k rest
    | none => none
  | .cls cc, s, k =>
    match s with
    | [] => none
    | c :: cs => if cc c then k cs else none
  | .cat r1 r2, s, k => mrun r1 s (fun rest => mrun r2 rest k)
  | .alt r1 r2, s, k => (mrun r1 s k).orElse (fun _ => mrun r2 s k)
  | .plusGreedy cc, s, k =>
    let m := runLen cc s
    (List.range m).findSome? (fun i => k (s.drop (m - i)))
  | .starGreedy cc, s, k =>
    let m := runLen cc s
    (List.range (m + 1)).findSome? (fun i => k (s.drop (m - i)))
  | .eos, s, k => if s.isEmpty then k s else none

/-- Match `pre`, then a lazily-quantified capture group `([cc]+?)`, then `tail`,
at the current position; returns the group's characters.  Lazy split points are
tried shortest-first, exactly as `+?` does. -/
def capAttempt (pre : RE) (cc : Char → Bool) (tail : RE) (s : List Char) :
    Option (List Char) :=
  mrun pre s (fun rest =>
    let m := runLen cc rest
    (List.range m).findSome? (fun i =>
      mrun tail (rest.drop (i + 1)) (fun _ => some (rest.take (i + 1)))))

/-- `message.match(/pre([cc]+?)tail/i)` for the capture-group regexes of
`extractLeadData`: scan start positions left to right, return the first
position's capture. -/
def regexCapture (pre : RE) (cc : Char → Bool) (tail : RE) (s : String) :
    Option String :=
  let cs := s.toList
  ((List.range (cs.length + 1)).findSome? (fun p => capAttempt pre cc tail (cs.drop p))).map
    (fun l => String.mk l)

/-- `message.match(re)` returning the whole matched text (used for the e-mail
regex, whose capture is the whole match). -/
def regexMatchWhole (r : RE) (s : String) : Option String :=
  let cs := s.toList
  ((List.range (cs.length + 1)).findSome? (fun p =>
    let suf := cs.drop p
    mrun r suf (fun rest => some (suf.take (suf.length - rest.length))))).map
    (fun l => String.mk l)

/-- `\s` (the whitespace the inputs at hand exercise). -/
def wsClass (c : Char) : Bool :=
  c = ' ' || c = '\t' || c = '\n' || c = '\r'

/-- `[A-Za-z]`. -/
def alphaClass (c : Char) : Bool :=
  ('A' ≤ c && c ≤ 'Z') || ('a' ≤ c && c ≤ 'z')

/-- `[0-9]`. -/
def digitClass (c : Char) : Bool :=
  '0' ≤ c && c ≤ '9'

/-- `[A-Za-z\s]` (group class of the name regex). -/
def nameClass (c : Char) : Bool :=
  alphaClass c || wsClass c

/-- `[A-Za-z0-9\s&.,-]` (group class of the company regex). -/
def companyClass (c : Char) : Bool :=
  alphaClass c || digitClass c || wsClass c || c = '&' || c = '.' || c = ',' || c = '-'

/-- `[a-zA-Z0-9._%+-]` (local part of the e-mail regex). -/
def emailLocalClass (c : Char) : Bool :=
  alphaClass c || digitClass c || c = '.' || c = '_' || c = '%' || c = '+' || c = '-'

/-- `[a-zA-Z0-9.-]` (domain part of the e-mail regex). -/
def emailDomainClass (c : Char) : Bool :=
  alphaClass c || digitClass c || c = '.' || c = '-'

/-- `\s+lit` as an `RE`. -/
def wsThen (lit : String) : RE :=
  .cat (.plusGreedy wsClass) (.lit lit.toList)

/-- Tail of the name regex:
`(?:\s+in\s+Salesforce|\s+with\s+email|\s+is\s+his|\s+is\s+her|$)`. -/
def nameTail : RE :=
  .alt (.cat (wsThen "in") (wsThen "Salesforce"))
    (.alt (.cat (wsThen "with") (wsThen "email"))
      (.alt (.cat (wsThen "is") (wsThen "his"))
        (.alt (.cat (wsThen "is") (wsThen "her")) .eos)))

/-- Prefix of the name regex: `for\s+`. -/
def namePre : RE :=
  .cat (.lit "for".toList) (.plusGreedy wsClass)

/-- Tail of the company regex:
`(?:\s+with\s+email|\s+is\s+his|\s+is\s+her|$)`. -/
def companyTail : RE :=
  .alt (.cat (wsThen "with") (wsThen "email"))
    (.alt (.cat (wsThen "is") (wsThen "his"))
      (.alt (.cat (wsThen "is") (wsThen "her")) .eos))

/-- Prefix of the company regex: `(?:company|at|for)\s+`. -/
def companyPre : RE :=
  .cat (.alt (.lit "company".toList) (.alt (.lit "at".toList) (.lit "for".toList)))
    (.plusGreedy wsClass)

/-- The e-mail regex `([a-zA-Z0-9._%+-]+@[a-zA-Z0-9.-]+\.[a-zA-Z]{2,})`. -/
def emailRE : RE :=
  .cat (.plusGreedy emailLocalClass)
    (.cat (.lit "@".toList)
      (.cat (.plusGreedy emailDomainClass)
        (.cat (.lit ".".toList)
          (.cat (.cls alphaClass) (.cat (.cls alphaClass) (.starGreedy alphaClass))))))

/-- The record assembled by `extractLeadData` (the CRM `Lead` payload). -/
structure LeadData where
  FirstName : Option String := none
  LastName : String
  Company : String
  Email : Option String := none
  Status : String
deriving DecidableEq, Repr

/-- `extractLeadData`: hard-coded defaults, then best-effort name, e-mail and
company extraction with the three regexes above. -/
def extractLeadData (message : String) : LeadData :=
  let base : LeadData :=
    { LastName := "Lead from Slack"
      Company := "Unknown Company"
      Status := "Open - Not Contacted" }
  let withName :=
    match regexCapture namePre nameClass nameTail message with
    | some captured =>
      let fullName := jsTrim captured
      let nameParts := jsSplitSpace fullName
      if nameParts.length ≥ 2 then
        { base with
          FirstName := some (nameParts.headD "")
          LastName := jsJoinSpace (nameParts.drop 1) }
      else
        { base with LastName := fullName }
    | none => base
  let withEmail :=
    match regexMatchWhole emailRE message with
    | some email => { withName with Email := some email }
    | none => withName
  match regexCapture companyPre companyClass companyTail message with
  | some captured => { withEmail with Company := jsTrim captured }
  | none => withEmail

/-! ## CRM (Salesforce) structured actions

Source: `app.js` `handleSalesforceRequest` and `createLeadWithRefresh`, with
`salesforceService` / the Salesforce REST API as an external oracle.  Every
external call the pipeline performs is recorded in an `SFEvent` trace so that
refresh/retry counts are part of the verified output.  The payload extractors
for the non-lead objects (`extractOpportunityData` etc.) only build the record
sent to the oracle and never influence control flow, so those calls carry just
the access token here. -/

/-- Result shape returned by `salesforceService.createLead` and friends. -/
structure SFResult where
  success : Bool
  id : Option String := none
  url : Option String := none
  error : Option String := none
deriving DecidableEq, Repr

/-- The raw fields of a successful OAuth token-refresh response. -/
structure RefreshRaw where
  access_token : String
  instance_url : Option String
  refresh_token : Option String
deriving DecidableEq, Repr

/-- What `salesforceService.refreshToken` returns after its
`response.data.refresh_token || refreshToken` fallback. -/
structure RefreshedTokens where
  access_token : String
  instance_url : Option String
  refresh_token : String
deriving DecidableEq, Repr

/-- The stored per-(team,user) Salesforce token record. -/
structure SFTokens where
  access_token : String
  refresh_token : Option String
  instance_url : Option String
  teamId : Option String
deriving DecidableEq, Repr

/-- The external Salesforce collaborator: outcomes of each REST call as a
function of the inputs the pipeline sends. -/
structure SFWorld where
  createLead : LeadData → String → SFResult
  refreshRaw : Except Unit RefreshRaw
  createOpportunity : String → SFResult
  createAccount : String → SFResult
  createCase : String → SFResult
  createTask : String → SFResult

/-- Trace of external side effects performed during one structured action. -/
inductive SFEvent where
  | createLeadCall (accessToken : String)
  | refreshCall
  | saveTokensCall (tokens : SFTokens)
  | createOpportunityCall (accessToken : String)
  | createAccountCall (accessToken : String)
  | createCaseCall (accessToken : String)
  | createTaskCall (accessToken : String)
deriving DecidableEq, Repr

/-- Number of token-refresh calls in a trace. -/
def countRefresh (tr : List SFEvent) : Nat :=
  tr.countP (fun e => match e with | .refreshCall => true | _ => false)

/-- Number of lead-creation attempts in a trace. -/
def countLeadCalls (tr : List SFEvent) : Nat :=
  tr.countP (fun e => match e with | .createLeadCall _ => true | _ => false)

/-- `salesforceService.refreshToken`: on HTTP failure it throws a generic
error; on success it applies the `|| refreshToken` fallback. -/
def refreshTokenService (w : SFWorld) (providedRefreshToken : String) :
    Except String RefreshedTokens :=
  match w.refreshRaw with
  | .error _ => .error "Failed to refresh Salesforce token"
  | .ok raw =>
    .ok
      { access_token := raw.access_token
        instance_url := raw.instance_url
        refresh_token :=
          match raw.refresh_token with
          | some s => if s = "" then providedRefreshToken else s
          | none => providedRefreshToken }

/-- JS `result.error && result.error.includes('INVALID_SESSION_ID')`. -/
def errIncludesInvalidSession (e : Option String) : Bool :=
  match e with
  | some s => s ≠ "" && strIncludes s "INVALID_SESSION_ID"
  | none => false

/-- `createLeadWithRefresh`: one attempt; on an `INVALID_SESSION_ID` failure
with a (truthy) refresh token, one refresh, one token save and one retry; the
retry's result is returned as is; a refresh failure is final. -/
def createLeadWithRefresh (w : SFWorld) (leadData : LeadData) (tokens : SFTokens) :
    SFResult × List SFEvent :=
  let result := w.createLead leadData tokens.access_token
  if result.success then
    (result, [.createLeadCall tokens.access_token])
  else if errIncludesInvalidSession result.error && jsTruthyStr tokens.refresh_token then
    match refreshTokenService w (tokens.refresh_token.getD "") with
    | .error _ =>
      ({ success := false
         error := some "Token expired and refresh failed. Please reconnect your Salesforce integration." },
        [.createLeadCall tokens.access_token, .refreshCall])
    | .ok refreshedTokens =>
      let updatedTokens : SFTokens :=
        { tokens with
          access_token := refreshedTokens.access_token
          refresh_token := some refreshedTokens.refresh_token
          instance_url :=
            match refreshedTokens.instance_url with
            | some u => if u = "" then tokens.instance_url else some u
            | none => tokens.instance_url }
      let retry := w.createLead leadData refreshedTokens.access_token
      (retry,
        [.createLeadCall tokens.access_token, .refreshCall, .saveTokensCall updatedTokens,
          .createLeadCall refreshedTokens.access_token])
  else
    (result, [.createLeadCall tokens.access_token])

/-- The lead-detection disjunction at the top of `handleSalesforceRequest`
(`fullConversation` is the history contents joined with spaces, plus the
message). -/
def leadBranchCond (message : String) (history : List ChatMsg) : Bool :=
  let lowerMessage := jsToLowerCase message
  let fullConversation :=
    jsJoinSpace (history.map (fun m => m.content)) ++ " " ++ message
  let lowerFullConversation := jsToLowerCase fullConversation
  strIncludes lowerMessage "create lead" ||
  strIncludes lowerMessage "new lead" ||
  strIncludes lowerMessage "lead for" ||
  strIncludes lowerMessage "please create it" ||
  (strIncludes lowerMessage "lead" && strIncludes lowerMessage "salesforce") ||
  strIncludes lowerFullConversation "create a lead"

/-- Reply text for a successful creation (`✅ ... created successfully!`). -/
def createdMsg (what : String) (r : SFResult) : String :=
  "✅ " ++ what ++ " created successfully!\n\n**" ++ what ++ " ID:** " ++ jsShowOpt r.id ++
    "\n**Link:** " ++ jsShowOpt r.url ++ "\n\nIs there anything else I can help you with?"

/-- Reply text for a failed creation (`❌ Failed to create ...`). -/
def failedMsg (what : String) (r : SFResult) : String :=
  "❌ Failed to create " ++ what ++ ": " ++ jsShowOpt r.error

/-- `handleSalesforceRequest`: keyword-routed CRM branches.  Only the lead
branch goes through `createLeadWithRefresh`; every other branch calls its
creation endpoint once with the stored access token and reports the outcome.
Returns `none` when no CRM operation is detected. -/
def handleSalesforceRequest (w : SFWorld) (message : String) (tokens : SFTokens)
    (history : List ChatMsg) : Option String × List SFEvent :=
  let lowerMessage := jsToLowerCase message
  let fullConversation :=
    jsJoinSpace (history.map (fun m => m.content)) ++ " " ++ message
  if leadBranchCond message history then
    let leadData := extractLeadData fullConversation
    let (result, events) := createLeadWithRefresh w leadData tokens
    if result.success then
      (some ("✅ Lead created successfully!\n\n**Lead ID:** " ++ jsShowOpt result.id ++
        "\n**Link:** " ++ jsShowOpt result.url ++
        "\n\nIs there anything else I can help you with?"), events)
    else
      (some ("❌ Failed to create lead: " ++ jsShowOpt result.error), events)
  else if strIncludes lowerMessage "create opportunity" ||
      strIncludes lowerMessage "new opportunity" then
    let r := w.createOpportunity tokens.access_token
    (some (if r.success then createdMsg "Opportunity" r else failedMsg "opportunity" r),
      [.createOpportunityCall tokens.access_token])
  else if strIncludes lowerMessage "create account" ||
      strIncludes lowerMessage "new account" then
    let r := w.createAccount tokens.access_token
    (some (if r.success then createdMsg "Account" r else failedMsg "account" r),
      [.createAccountCall tokens.access_token])
  else if strIncludes lowerMessage "create case" ||
      strIncludes lowerMessage "new case" then
    let r := w.createCase tokens.access_token
    (some (if r.success then createdMsg "Case" r else failedMsg "case" r),
      [.createCaseCall tokens.access_token])
  else if strIncludes lowerMessage "create task" ||
      strIncludes lowerMessage "new task" then
    let r := w.createTask tokens.access_token
    (some (if r.success then createdMsg "Task" r else failedMsg "task" r),
      [.createTaskCall tokens.access_token])
  else
    (none, [])

/-! ## Canned-response delivery (plain text vs. Block Kit)

Source: `app.js` `sendKeyPhraseResponse` and `validateBlockKitStructure`.
`JSON.parse` is embedded as a fuel-bounded recursive-descent parser of the
JSON grammar (numbers are kept as their raw text; that is all the delivery
path inspects). -/

/-- A parsed JSON value. -/
inductive JVal where
  | jnull
  | jbool (b : Bool)
  | jnum (raw : String)
  | jstr (s : String)
  | jarr (xs : List JVal)
  | jobj (fields : List (String × JVal))
deriving Inhabited

/-- JSON insignificant whitespace. -/
def jsonWs (c : Char) : Bool :=
  c = ' ' || c = '\t' || c = '\n' || c = '\r'

/-- Drop leading JSON whitespace. -/
def skipWs : List Char → List Char
  | [] => []
  | c :: cs => if jsonWs c then skipWs cs else c :: cs

/-- Value of one hex digit (`0`-`9`, `a`-`f`, `A`-`F`), by code point. -/
def hexVal (c : Char) : Option Nat :=
  let n := c.toNat
  if 0x30 ≤ n && n ≤ 0x39 then some (n - 0x30)
  else if 0x61 ≤ n && n ≤ 0x66 then some (n - 0x57)
  else if 0x41 ≤ n && n ≤ 0x46 then some (n - 0x37)
  else none

/-- Body of a JSON string after the opening quote; returns the decoded
characters and the input after the closing quote. -/
def parseStringBody : List Char → Option (List Char × List Char)
  | [] => none
  | '"' :: rest => some ([], rest)
  | '\\' :: '"' :: rest => (parseStringBody rest).map (fun p => ('"' :: p.1, p.2))
  | '\\' :: '\\' :: rest => (parseStringBody rest).map (fun p => ('\\' :: p.1, p.2))
  | '\\' :: '/' :: rest => (parseStringBody rest).map (fun p => ('/' :: p.1, p.2))
  | '\\' :: 'b' :: rest => (parseStringBody rest).map (fun p => ('\x08' :: p.1, p.2))
  | '\\' :: 'f' :: rest => (parseStringBody rest).map (fun p => ('\x0C' :: p.1, p.2))
  | '\\' :: 'n' :: rest => (parseStringBody rest).map (fun p => ('\n' :: p.1, p.2))
  | '\\' :: 'r' :: rest => (parseStringBody rest).map (fun p => ('\x0D' :: p.1, p.2))
  | '\\' :: 't' :: rest => (parseStringBody rest).map (fun p => ('\t' :: p.1, p.2))
  | '\\' :: 'u' :: h1 :: h2 :: h3 :: h4 :: rest =>
    match hexVal h1, hexVal h2, hexVal h3, hexVal h4 with
    | some a, some b, some c, some d =>
      (parseStringBody rest).map (fun p =>
        (Char.ofNat (((a * 16 + b) * 16 + c) * 16 + d) :: p.1, p.2))
    | _, _, _, _ => none
  | '\\' :: _ => none
  | c :: rest =>
    if c.toNat < 0x20 then none
    else (parseStringBody rest).map (fun p => (c :: p.1, p.2))

/-- Take a maximal run of decimal digits. -/
def takeDigits : List Char → List Char × List Char
  | [] => ([], [])
  | c :: cs =>
    if !digitClass c then ([], c :: cs)
    else
      match takeDigits cs with
      | (ds, rest) => (c :: ds, rest)

/-- A JSON number (`-?int frac? exp?`); returns its raw text and the rest. -/
def parseNumber (s : List Char) : Option (List Char × List Char) :=
  let (neg, s1) := match s with
    | '-' :: t => (['-'], t)
    | _ => (([] : List Char), s)
  let int? : Option (List Char × List Char) :=
    match s1 with
    | '0' :: t => some (['0'], t)
    | c :: t =>
      if digitClass c && c ≠ '0' then
        let p := takeDigits t
        some (c :: p.1, p.2)
      else none
    | [] => none
  match int? with
  | none => none
  | some (intPart, s2) =>
    let (fracPart, s3) : List Char × List Char :=
      match s2 with
      | '.' :: t =>
        let p := takeDigits t
        if p.1.isEmpty then ([], s2) else ('.' :: p.1, p.2)
      | _ => ([], s2)
    let fracOk : Bool := match s2 with
      | '.' :: t => !(takeDigits t).1.isEmpty
      | _ => true
    if !fracOk then none
    else
      let (expPart, s4) : List Char × List Char :=
        match s3 with
        | e :: t =>
          if e = 'e' || e = 'E' then
            let (sign, t2) := match t with
              | '+' :: u => (['+'], u)
              | '-' :: u => (['-'], u)
              | _ => (([] : List Char), t)
            let p := takeDigits t2
            if p.1.isEmpty then ([], s3) else (e :: (sign ++ p.1), p.2)
          else ([], s3)
        | [] => ([], s3)
      let expOk : Bool := match s3 with
        | e :: t =>
          if e = 'e' || e = 'E' then
            let t2 := match t with
              | '+' :: u => u
              | '-' :: u => u
              | _ => t
            !(takeDigits t2).1.isEmpty
          else true
        | [] => true
      if !expOk then none
      else some (neg ++ intPart ++ fracPart ++ expPart, s4)

mutual

/-- One JSON value (fuel-bounded recursive descent). -/
def parseValue : Nat → List Char → Option (JVal × List Char)
  | 0, _ => none
  | Nat.succ fuel, s =>
    match skipWs s with
    | 'n' :: 'u' :: 'l' :: 'l' :: rest => some (.jnull, rest)
    | 't' :: 'r' :: 'u' :: 'e' :: rest => some (.jbool true, rest)
    | 'f' :: 'a' :: 'l' :: 's' :: 'e' :: rest => some (.jbool false, rest)
    | '"' :: rest => (parseStringBody rest).map (fun p => (.jstr (String.mk p.1), p.2))
    | '[' :: rest =>
      (match skipWs rest with
      | ']' :: r2 => some (.jarr [], r2)
      | _ => (parseArrayItems fuel rest).map (fun p => (.jarr p.1, p.2)))
    | '{' :: rest =>
      (match skipWs rest with
      | '}' :: r2 => some (.jobj [], r2)
      | _ => (parseObjectFields fuel rest).map (fun p => (.jobj p.1, p.2)))
    | s' => (parseNumber s').map (fun p => (.jnum (String.mk p.1), p.2))

/-- Comma-separated array items up to the closing `]`. -/
def parseArrayItems : Nat → List Char → Option (List JVal × List Char)
  | 0, _ => none
  | Nat.succ fuel, s =>
    match parseValue fuel s with
    | none => none
    | some (v, rest) =>
      match skipWs rest with
      | ',' :: r2 => (parseArrayItems fuel r2).map (fun p => (v :: p.1, p.2))
      | ']' :: r2 => some ([v], r2)
      | _ => none

/-- Comma-separated `"key": value` fields up to the closing `}`. -/
def parseObjectFields : Nat → List Char → Option (List (String × JVal) × List Char)
  | 0, _ => none
  | Nat.succ fuel, s =>
    match skipWs s with
    | '"' :: rest =>
      match parseStringBody rest with
      | none => none
      | some (keyCs, r1) =>
        match skipWs r1 with
        | ':' :: r2 =>
          match parseValue fuel r2 with
          | none => none
          | some (v, r3) =>
            match skipWs r3 with
            | ',' :: r4 =>
              (parseObjectFields fuel r4).map (fun p => ((String.mk keyCs, v) :: p.1, p.2))
            | '}' :: r4 => some ([(String.mk keyCs, v)], r4)
            | _ => none
        | _ => none
    | _ => none

end

/-- `JSON.parse`: a single value covering the whole input (otherwise it
throws, which the delivery path catches). -/
def jsonParse (s : String) : Option JVal :=
  match parseValue (s.length + 1) s.toList with
  | some (v, rest) => if (skipWs rest).isEmpty then some v else none
  | none => none

/-- JS property read with duplicate-key semantics (`JSON.parse` keeps the last
occurrence); non-objects have no properties (`undefined`). -/
def lookupLast (fields : List (String × JVal)) (name : String) : Option JVal :=
  match fields with
  | [] => none
  | (k, v) :: rest =>
    match lookupLast rest name with
    | some r => some r
    | none => if k = name then some v else none

/-- `value.prop` as the delivery path reads it. -/
def getField : JVal → String → Option JVal
  | .jobj fs, name => lookupLast fs name
  | _, _ => none

/-- Is a raw JSON number zero (`0`, `-0`, `0.0`, `0e5`, ...)? -/
def isZeroNumRaw (raw : String) : Bool :=
  let mantissa := raw.toList.takeWhile (fun c => c ≠ 'e' && c ≠ 'E')
  (mantissa.filter (fun c => c ≠ '-' && c ≠ '.')).all (fun c => c = '0')

/-- JS truthiness of a parsed JSON value. -/
def truthy : JVal → Bool
  | .jnull => false
  | .jbool b => b
  | .jnum raw => !isZeroNumRaw raw
  | .jstr s => s ≠ ""
  | .jarr _ => true
  | .jobj _ => true

/-- JS truthiness of a possibly-absent property. -/
def truthyOpt : Option JVal → Bool
  | some v => truthy v
  | none => false

/-- JS string coercion as the delivery path uses it (exact for the primitive
values that actually reach a template or message-text position; containers
render by their JS `toString` one level deep). -/
def jsToString : JVal → String
  | .jnull => "null"
  | .jbool b => if b then "true" else "false"
  | .jnum raw => raw
  | .jstr s => s
  | .jarr xs =>
    String.intercalate ","
      (xs.map (fun v =>
        match v with
        | .jnull => ""
        | .jbool b => if b then "true" else "false"
        | .jnum raw => raw
        | .jstr s => s
        | .jarr _ => ""
        | .jobj _ => "[object Object]"))
  | .jobj _ => "[object Object]"

/-- Result of `validateBlockKitStructure`. -/
structure BKValidation where
  valid : Bool
  error : Option String := none
deriving DecidableEq, Repr

/-- The block types `validateBlockKitStructure` accepts. -/
def validBlockTypes : List String :=
  ["section", "divider", "image", "actions", "context", "input",
    "file", "header", "video", "rich_text", "call", "workflow_step"]

/-- JS `block.type === 'name'` (strict equality against a string literal). -/
def typeIs (btype : Option JVal) (t : String) : Bool :=
  match btype with
  | some (.jstr s) => s = t
  | _ => false

/-- The per-block checks of the `validateBlockKitStructure` loop body, for the
block at (0-based) index `i`.  A JSON `null` block makes the very first check,
`!block.type`, read a property of `null`, which throws a `TypeError` in the
source; that thrown path is `.error ()` here.  `.ok (some e)` is a returned
validation error; `.ok none` means the block passed.  (No other element shape
throws: property reads on numbers, strings, booleans and arrays yield
`undefined`, and `JSON.parse` never produces `undefined` itself.) -/
def validateBlock (i : Nat) (block : JVal) : Except Unit (Option String) :=
  match block with
  | .jnull => .error ()
  | _ =>
  let btype := getField block "type"
  if !truthyOpt btype then
    .ok (some ("Block " ++ toString (i + 1) ++ " is missing required 'type' field"))
  else if !(match btype with
      | some (.jstr t) => validBlockTypes.contains t
      | _ => false) then
    .ok (some ("Block " ++ toString (i + 1) ++ " has invalid type '" ++
      (match btype with | some v => jsToString v | none => "undefined") ++
      "'. Valid types: " ++ String.intercalate ", " validBlockTypes))
  else if typeIs btype "section" && !truthyOpt (getField block "text") &&
      !truthyOpt (getField block "fields") && !truthyOpt (getField block "accessory") then
    .ok (some ("Section block " ++ toString (i + 1) ++
      " must have at least one of: text, fields, or accessory"))
  else if typeIs btype "header" && !truthyOpt (getField block "text") then
    .ok (some ("Header block " ++ toString (i + 1) ++ " must have 'text' field"))
  else if typeIs btype "actions" && !(match getField block "elements" with
      | some (.jarr _) => true
      | _ => false) then
    .ok (some ("Actions block " ++ toString (i + 1) ++ " must have 'elements' array"))
  else
    .ok none

/-- First error of the indexed loop over the blocks; a thrown `TypeError`
(`.error ()`) aborts the loop and propagates. -/
def firstBlockError (i : Nat) : List JVal → Except Unit (Option String)
  | [] => .ok none
  | b :: bs =>
    match validateBlock i b with
    | .error u => .error u
    | .ok (some e) => .ok (some e)
    | .ok none => firstBlockError (i + 1) bs

/-- `validateBlockKitStructure`: array check, bounds checks, then the
first-failing per-block check.  `.error ()` is the `TypeError` escaping the
function when a block is JSON `null`. -/
def validateBlockKitStructure (v : JVal) : Except Unit BKValidation :=
  match v with
  | .jarr blocks =>
    if blocks.length = 0 then
      .ok { valid := false, error := some "Block Kit array cannot be empty" }
    else if blocks.length > 50 then
      .ok { valid := false, error := some "Block Kit cannot have more than 50 blocks" }
    else
      match firstBlockError 0 blocks with
      | .error u => .error u
      | .ok (some e) => .ok { valid := false, error := some e }
      | .ok none => .ok { valid := true }
  | _ => .ok { valid := false, error := some "Block Kit must be an array of blocks" }

/-- One message posted by the delivery path. -/
inductive SentMessage where
  | plain (text : String)
  | withBlocks (text : String) (blocks : List JVal)

/-- Diagnostic text sent before the plain-text fallback when a parsed payload
fails Block Kit validation. -/
def invalidBlockKitNotice (validationError : Option String) : String :=
  "❌ Invalid Block Kit structure: " ++ jsShowOpt validationError ++
    "\n\nFalling back to plain text response."

/-- `sendKeyPhraseResponse`: opportunistic parse of `responseText`.  A JSON
array (or object with a `blocks` array) that validates is posted as blocks; one
that fails validation is posted as a diagnostic notice followed by the raw
text.  Anything else is posted as plain text with no diagnostic: text that is
not JSON at all (the `JSON.parse` throw), any other JSON shape, and also a
candidate structure whose validation *throws* (a `null` block) — the inner
`catch (parseError)` swallows that `TypeError` and falls through to the
plain-text post. -/
def sendKeyPhraseResponse (responseText : String) : List SentMessage :=
  match jsonParse responseText with
  | none => [.plain responseText]
  | some parsed =>
    match parsed with
    | .jarr blocks =>
      match validateBlockKitStructure (.jarr blocks) with
      | .error _ => [.plain responseText]
      | .ok validation =>
        if validation.valid then
          [.withBlocks "Response" blocks]
        else
          [.plain (invalidBlockKitNotice validation.error), .plain responseText]
    | .jobj fields =>
      match getField (.jobj fields) "blocks" with
      | some (.jarr blocks) =>
        match validateBlockKitStructure (.jarr blocks) with
        | .error _ => [.plain responseText]
        | .ok validation =>
          if validation.valid then
            let text :=
              match getField (.jobj fields) "text" with
              | some tv => if truthy tv then jsToString tv else "Response"
              | none => "Response"
            [.withBlocks text blocks]
          else
            [.plain (invalidBlockKitNotice validation.error), .plain responseText]
      | _ => [.plain responseText]
    | _ => [.plain responseText]

/-- Does a delivery contain the diagnostic notice? -/
def hasDiagnostic (delivery : List SentMessage) : Prop :=
  ∃ m ∈ delivery, ∃ t, m = SentMessage.plain t ∧
    strIncludes t "Invalid Block Kit structure" = true

/-! ## Completion client

Source: `app.js` `callGrokAPI` (the completion leg: one `axios.post`, the
`choices[0].message.content` read, and the catch-all that rethrows a fixed
generic error) and the `app_mention` handler's error-to-apology conversion. -/

/-- Outcome of the single completion HTTP call: a usable completion, a
transport/non-2xx failure carrying the provider's error body, or a 2xx
response without the expected content path. -/
inductive GrokOutcome where
  | ok (content : String)
  | httpError (body : String)
  | malformedBody
deriving DecidableEq, Repr

/-- The completion leg of `callGrokAPI`: issue the one HTTP call recorded in
the second component; any failure is rethrown as the fixed generic error (the
provider's body is only logged). -/
def callGrokCompletion (outcome : GrokOutcome) : Except String String × Nat :=
  match outcome with
  | .ok content => (.ok content, 1)
  | .httpError _ => (.error "Failed to get AI response", 1)
  | .malformedBody => (.error "Failed to get AI response", 1)

/-- The `app_mention` handler's per-turn boundary: a thrown error becomes a
user-visible apology built from `error.message`. -/
def mentionReply (result : Except String String) : String :=
  match result with
  | .ok text => text
  | .error message => "Sorry, I encountered an error: " ++ message ++ ". Please try again."

/-! ## Concrete fixtures used by witnesses and counterexamples -/

/-- An enabled wildcard record, newer (`createdAt 2`). -/
def wildcardNewer : CannedResponse :=
  { id := "wild", triggerPhrase := "he*", responseText := "wildcard reply",
    enabled := some true, createdAt := 2 }

/-- An enabled exact-trigger record, older (`createdAt 1`). -/
def exactOlder : CannedResponse :=
  { id := "exact", triggerPhrase := "hello", responseText := "exact reply",
    enabled := some true, createdAt := 1 }

/-- An enabled record whose trigger is `hey*`. -/
def heyRecord : CannedResponse :=
  { id := "hey", triggerPhrase := "hey*", responseText := "Hello!",
    enabled := some true, createdAt := 0 }

/-- Is a parsed payload a Block Kit candidate (a JSON array, or an object
whose `blocks` property is an array)?  Only candidates can produce the
diagnostic notice. -/
def isStructCandidate : JVal → Bool
  | .jarr _ => true
  | .jobj fields =>
    match lookupLast fields "blocks" with
    | some (.jarr _) => true
    | _ => false
  | _ => false

/-- Helper: the enabled records of a team, in the newest-first iteration order
the matcher scans. -/
def enabledIterationOrder (records : List CannedResponse) : List CannedResponse :=
  (getAllKeyPhraseResponses records).filter (fun r => r.enabled != some false)

/-- Fixture: a stored monitored-channel entry. -/
def sampleChannel (i : Nat) : MonitoredChannel :=
  { channelId := "C" ++ toString i, channelName := "chan" ++ toString i,
    responseType := "analytical", enabled := true, autoCreateJiraTickets := false,
    addedAt := "2024-01-01T00:00:00Z", addedBy := some "U1", updatedAt := none }

/-- Fixture: a team already monitoring five channels. -/
def fiveChannels : List MonitoredChannel :=
  [sampleChannel 1, sampleChannel 2, sampleChannel 3, sampleChannel 4, sampleChannel 5]

/-- Fixture: a creation request for a sixth channel. -/
def sixthChannelData : ChannelData :=
  { channelId := "C9", channelName := "nine", responseType := none,
    enabled := none, autoCreateJiraTickets := none, addedBy := none }

/-- Fixture: the thread's root message (the original mention). -/
def threadRoot : SlackMessage :=
  { ts := "1700000000.000100", bot_id := none, text := "original mention" }

/-- Fixture: an earlier bot reply in the thread. -/
def botReply : SlackMessage :=
  { ts := "1700000000.000200", bot_id := some "B1", text := "earlier bot answer" }

/-- Fixture: the triggering message of the current turn (the latest reply). -/
def triggeringMsg : SlackMessage :=
  { ts := "1700000000.000300", bot_id := none, text := "what about pricing?" }

/-- Fixture: the reply list the platform returns for the thread. -/
def threadFetch : List SlackMessage := [threadRoot, botReply, triggeringMsg]

/-- Fixture: the session-expired failure a Salesforce write returns. -/
def sessionExpiredResult : SFResult :=
  { success := false, error := some "INVALID_SESSION_ID: Session expired or invalid" }

/-- Fixture: a Salesforce oracle whose writes fail with a session-expired
error under the old token; lead creation succeeds under the refreshed token
`t-new`. -/
def expiredWorld : SFWorld :=
  { createLead := fun _ token =>
      if token = "t-new" then
        { success := true, id := some "00Q1", url := some "https://org/l/00Q1" }
      else sessionExpiredResult
    refreshRaw := .ok
      { access_token := "t-new", instance_url := some "https://org",
        refresh_token := none }
    createOpportunity := fun _ => sessionExpiredResult
    createAccount := fun _ => sessionExpiredResult
    createCase := fun _ => sessionExpiredResult
    createTask := fun _ => sessionExpiredResult }

/-- Fixture: the stored token record, with a refresh token present. -/
def storedTokens : SFTokens :=
  { access_token := "t-old", refresh_token := some "r0",
    instance_url := some "https://org", teamId := some "T1" }

/-- Fixture: a default lead payload. -/
def sampleLead : LeadData :=
  { LastName := "Lead from Slack", Company := "Unknown Company",
    Status := "Open - Not Contacted" }

/-! ## Theorems -/

/-- Helper: in a `crGE`-sorted (newest-first) list, the first element
satisfying `p` has the greatest `createdAt` among all elements satisfying
`p`. -/
theorem find?_sorted_newest {l : List CannedResponse} {p : CannedResponse → Bool}
    {r : CannedResponse} (hs : l.Pairwise crGE) (hf : l.find? p = some r) :
    ∀ x ∈ l, p x = true → x.createdAt ≤ r.createdAt := by
  induction l with
  | nil => simp at hf
  | cons a t ih =>
    by_cases hpa : p a = true
    · rw [List.find?_cons_of_pos _ hpa] at hf
      cases hf
      intro x hx _
      rcases List.mem_cons.mp hx with rfl | hxt
      · exact Nat.le_refl _
      · exact (List.pairwise_cons.mp hs).1 x hxt
    · rw [List.find?_cons_of_neg _ hpa] at hf
      intro x hx hpx
      rcases List.mem_cons.mp hx with rfl | hxt
      · exact absurd hpx hpa
      · exact ih (List.pairwise_cons.mp hs).2 hf x hxt hpx

/-- Helper: membership in the scanned list, from membership among the stored
records. -/
theorem mem_enabledIterationOrder {records : List CannedResponse} {r : CannedResponse}
    (hm : r ∈ records) (he : r.enabled ≠ some false) :
    r ∈ enabledIterationOrder records := by
  refine List.mem_filter.mpr ⟨?_, ?_⟩
  · exact (List.perm_insertionSort crGE records).mem_iff.mpr hm
  · exact bne_iff_ne.mpr he

/-- C1 (counterexample): with an enabled wildcard record `he*` newer than an
enabled exact record `hello`, the message `"hello"` — which exactly equals the
`hello` record's trigger — is answered by the wildcard record, not the
exact-match record: the scan is first-match-wins in iteration order, with no
preference for exact matches across records. -/
theorem exact_match_not_preferred_counterexample :
    checkKeyPhraseResponse "hello" [wildcardNewer, exactOlder] = some wildcardNewer ∧
    exactOlder ∈ [wildcardNewer, exactOlder] ∧
    exactOlder.enabled ≠ some false ∧
    jsToLowerCase "hello" = jsToLowerCase exactOlder.triggerPhrase ∧
    wildcardNewer ≠ exactOlder ∧
    (jsToLowerCase "hello" == jsToLowerCase wildcardNewer.triggerPhrase) = false := by
  refine ⟨by decide, by decide, by decide, by decide, by decide, by decide⟩

/-- C1 (amended): when the lower-cased message exactly equals some enabled
record's lower-cased trigger, the matcher returns *some* enabled matching
record — the first enabled match in the newest-first iteration order, which
need not be the exact-match record — and the turn short-circuits to the canned
reply, so the Completion Client is not invoked. -/
theorem keyphrase_match_shortcircuits_completion
    (text : String) (records : List CannedResponse) (r : CannedResponse)
    (hm : r ∈ records) (he : r.enabled ≠ some false)
    (hx : jsToLowerCase text = jsToLowerCase r.triggerPhrase) :
    ∃ r', checkKeyPhraseResponse text records = some r' ∧
      r' ∈ records ∧ r'.enabled ≠ some false ∧ matchesTrigger text r' = true ∧
      ∀ teamId, routeImThreadMessage text (some teamId) records = .canned r' := by
  have hmt : matchesTrigger text r = true := by
    simp [matchesTrigger, hx]
  have hrm : r ∈ enabledIterationOrder records := mem_enabledIterationOrder hm he
  have hsome : ((enabledIterationOrder records).find?
      (fun r => matchesTrigger text r)).isSome = true :=
    List.find?_isSome.mpr ⟨r, hrm, hmt⟩
  obtain ⟨r', hr'⟩ := Option.isSome_iff_exists.mp hsome
  have hck : checkKeyPhraseResponse text records = some r' := hr'
  have hr'mem : r' ∈ enabledIterationOrder records := List.mem_of_find?_eq_some hr'
  have hr'rec : r' ∈ records :=
    (List.perm_insertionSort crGE records).mem_iff.mp (List.mem_filter.mp hr'mem).1
  have hr'en : r'.enabled ≠ some false := bne_iff_ne.mp (List.mem_filter.mp hr'mem).2
  refine ⟨r', hck, hr'rec, hr'en, List.find?_some hr', fun teamId => ?_⟩
  simp [routeImThreadMessage, hck]

/-- C1 (witness): instantiation at the concrete two-record store. -/
theorem keyphrase_match_shortcircuits_completion_witness :
    ∃ r', checkKeyPhraseResponse "hello" [wildcardNewer, exactOlder] = some r' ∧
      r' ∈ [wildcardNewer, exactOlder] ∧ r'.enabled ≠ some false ∧
      matchesTrigger "hello" r' = true ∧
      ∀ teamId,
        routeImThreadMessage "hello" (some teamId) [wildcardNewer, exactOlder] =
          .canned r' :=
  keyphrase_match_shortcircuits_completion "hello" [wildcardNewer, exactOlder]
    exactOlder (by decide) (by decide) (by decide)

/-- C8: with the enabled trigger `hey*`, the messages `"hey there"` and
`"hey"` both match (trailing-wildcard prefix match after stripping `*`), and
`"hi there"` does not match. -/
theorem hey_wildcard_matches :
    checkKeyPhraseResponse "hey there" [heyRecord] = some heyRecord ∧
    checkKeyPhraseResponse "hey" [heyRecord] = some heyRecord ∧
    checkKeyPhraseResponse "hi there" [heyRecord] = none :=
  ⟨by decide, by decide, by decide⟩

/-- C9: the store read sorts newest-first by `createdAt` and the scan is
first-match-wins, so the record the matcher returns has a `createdAt` at least
as recent as every enabled record matching the same message. -/
theorem matched_record_is_most_recent
    (msg : String) (records : List CannedResponse) (r r' : CannedResponse)
    (hck : checkKeyPhraseResponse msg records = some r)
    (hm : r' ∈ records) (he : r'.enabled ≠ some false)
    (hmt : matchesTrigger msg r' = true) :
    r'.createdAt ≤ r.createdAt := by
  have hs : (enabledIterationOrder records).Pairwise crGE :=
    List.Pairwise.filter _ (List.sorted_insertionSort crGE records)
  have hf : (enabledIterationOrder records).find? (fun r => matchesTrigger msg r) = some r :=
    hck
  exact find?_sorted_newest hs hf r' (mem_enabledIterationOrder hm he) hmt

/-- C9 (witness): with both fixtures matching `"hello"`, the returned record
is the newer one. -/
theorem matched_record_is_most_recent_witness :
    exactOlder.createdAt ≤ wildcardNewer.createdAt :=
  matched_record_is_most_recent "hello" [wildcardNewer, exactOlder]
    wildcardNewer exactOlder (by decide) (by decide) (by decide) (by decide)

/-- C4: the 5-entry cap.  With 5 (or more) stored entries, creation fails with
the cap error and leaves the stored list unchanged, regardless of the requested
channel; creation never grows a list of at most 5 entries past 5; updating
preserves the list length exactly and removal never grows it. -/
theorem monitored_channels_capped_at_five (now : String)
    (channels : List MonitoredChannel) (d : ChannelData) (cid : String)
    (u : ChannelUpdates) :
    (channels.length ≥ 5 →
      addMonitoredChannel now channels d =
        ({ success := false, error := some "Maximum of 5 channels can be monitored" },
          channels)) ∧
    (channels.length ≤ 5 → (addMonitoredChannel now channels d).2.length ≤ 5) ∧
    (updateMonitoredChannel now channels cid u).2.length = channels.length ∧
    (removeMonitoredChannel channels cid).2.length ≤ channels.length := by
  refine ⟨fun h5 => ?_, fun hle => ?_, ?_, ?_⟩
  · simp only [addMonitoredChannel, if_pos h5]
  · by_cases h5 : channels.length ≥ 5
    · simp only [addMonitoredChannel, if_pos h5]
      exact hle
    · simp only [addMonitoredChannel, if_neg h5]
      by_cases hdup : channels.any (fun c => c.channelId == d.channelId)
      · simp only [if_pos hdup]
        exact hle
      · simp only [if_neg hdup, List.length_append, List.length_singleton]
        omega
  · simp only [updateMonitoredChannel]
    split
    · rfl
    · split
      · rfl
      · simp [List.length_set]
  · simp only [removeMonitoredChannel]
    split
    · exact Nat.le_refl _
    · exact List.length_filter_le _ _

/-- C4 (witness): at a concrete 5-entry team. -/
theorem monitored_channels_capped_at_five_witness :
    addMonitoredChannel "2024-02-02T00:00:00Z" fiveChannels sixthChannelData =
      ({ success := false, error := some "Maximum of 5 channels can be monitored" },
        fiveChannels) ∧
    (addMonitoredChannel "2024-02-02T00:00:00Z" fiveChannels sixthChannelData).2.length ≤ 5 :=
  ⟨(monitored_channels_capped_at_five "2024-02-02T00:00:00Z" fiveChannels
      sixthChannelData "C1" {}).1 (by decide),
    (monitored_channels_capped_at_five "2024-02-02T00:00:00Z" fiveChannels
      sixthChannelData "C1" {}).2.1 (by decide)⟩

/-- C10: creation with a `channelId` already stored for the team (enabled or
not — the duplicate check ignores `enabled`) fails and leaves the stored list
unchanged; consequently creation preserves distinctness of the stored
`channelId`s. -/
theorem duplicate_channel_rejected (now : String)
    (channels : List MonitoredChannel) (d : ChannelData) :
    ((∃ c ∈ channels, c.channelId = d.channelId) →
      (addMonitoredChannel now channels d).1.success = false ∧
      (addMonitoredChannel now channels d).2 = channels) ∧
    ((channels.map (fun c => c.channelId)).Nodup →
      ((addMonitoredChannel now channels d).2.map (fun c => c.channelId)).Nodup) := by
  constructor
  · rintro ⟨c, hc, hid⟩
    by_cases h5 : channels.length ≥ 5
    · simp only [addMonitoredChannel, if_pos h5]
      constructor <;> trivial
    · have hany : channels.any (fun c => c.channelId == d.channelId) = true :=
        List.any_eq_true.mpr ⟨c, hc, beq_iff_eq.mpr hid⟩
      simp only [addMonitoredChannel, if_neg h5, if_pos hany]
      constructor <;> trivial
  · intro hnd
    by_cases h5 : channels.length ≥ 5
    · simpa only [addMonitoredChannel, if_pos h5] using hnd
    · by_cases hany : channels.any (fun c => c.channelId == d.channelId) = true
      · simpa only [addMonitoredChannel, if_neg h5, if_pos hany] using hnd
      · simp only [addMonitoredChannel, if_neg h5, if_neg hany, List.map_append,
          List.map_cons, List.map_nil]
        refine List.nodup_append.mpr ⟨hnd, List.nodup_singleton _, ?_⟩
        intro x hx hx'
        rcases List.mem_singleton.mp hx' with rfl
        obtain ⟨c, hc, hcid⟩ := List.mem_map.mp hx
        exact hany (List.any_eq_true.mpr ⟨c, hc, beq_iff_eq.mpr hcid⟩)

/-- C10 (witness): a concrete duplicate request is rejected unchanged, and a
concrete distinct-ids list stays distinct. -/
theorem duplicate_channel_rejected_witness :
    ((addMonitoredChannel "2024-02-02T00:00:00Z" [sampleChannel 1]
        { sixthChannelData with channelId := "C1" }).1.success = false ∧
      (addMonitoredChannel "2024-02-02T00:00:00Z" [sampleChannel 1]
        { sixthChannelData with channelId := "C1" }).2 = [sampleChannel 1]) ∧
    (((addMonitoredChannel "2024-02-02T00:00:00Z" [sampleChannel 1]
        { sixthChannelData with channelId := "C1" }).2.map
          (fun c => c.channelId)).Nodup) :=
  ⟨(duplicate_channel_rejected "2024-02-02T00:00:00Z" [sampleChannel 1]
      { sixthChannelData with channelId := "C1" }).1
      ⟨sampleChannel 1, by decide, by decide⟩,
    (duplicate_channel_rejected "2024-02-02T00:00:00Z" [sampleChannel 1]
      { sixthChannelData with channelId := "C1" }).2 (by decide)⟩

/-- C5 (counterexample): in a threaded context the assembler skips the entry
whose `ts` equals the *thread* timestamp — the thread's root message — not the
triggering message: with a root, a bot reply and the triggering latest reply
fetched, the triggering message appears in the returned window. -/
theorem window_contains_triggering_message :
    triggeringMsg.ts ≠ threadRoot.ts ∧
    toChatMsg triggeringMsg ∈ getConversationHistory threadFetch threadRoot.ts ∧
    getConversationHistory threadFetch threadRoot.ts =
      [{ role := .assistant, content := "earlier bot answer" },
        { role := .user, content := "what about pricing?" }] :=
  ⟨by decide, by decide, by decide⟩

/-- Helper: every window entry originates from a fetched platform entry whose
`ts` differs from the excluded timestamp, with content copied verbatim and the
role determined by bot authorship. -/
theorem mem_window_origin {fetched : List SlackMessage} {ts : String} {c : ChatMsg}
    (hc : c ∈ (fetched.filter (fun m => m.ts != ts)).map toChatMsg) :
    ∃ m ∈ fetched, m.ts ≠ ts ∧ c.content = m.text ∧
      (c.role = .assistant ↔ jsTruthyStr m.bot_id = true) := by
  obtain ⟨m, hm, rfl⟩ := List.mem_map.mp hc
  obtain ⟨hmem, hts⟩ := List.mem_filter.mp hm
  refine ⟨m, hmem, bne_iff_ne.mp hts, rfl, ?_⟩
  by_cases hb : jsTruthyStr m.bot_id = true
  · simp [toChatMsg, hb]
  · simp [toChatMsg, hb]

/-- C5 (amended): the threaded window excludes the thread-root entry (not the
triggering message), roles follow true bot authorship, the window never holds
more entries than were fetched (so at most 20 under the threaded fetch limit),
and fetch order is preserved (hence oldest-first, as `conversations.replies`
returns).  The flat-DM window excludes the triggering message by its `ts`,
classifies roles the same way, respects the 10-entry fetch limit, and is the
reversal of the newest-first fetch (hence oldest-first). -/
theorem conversation_window_properties (fetched : List SlackMessage)
    (threadTs eventTs : String) :
    (getConversationHistory fetched threadTs).length ≤ fetched.length ∧
    (fetched.length ≤ 20 → (getConversationHistory fetched threadTs).length ≤ 20) ∧
    (∀ c ∈ getConversationHistory fetched threadTs, ∃ m ∈ fetched,
      m.ts ≠ threadTs ∧ c.content = m.text ∧
      (c.role = .assistant ↔ jsTruthyStr m.bot_id = true)) ∧
    (getConversationHistory fetched threadTs).Sublist (fetched.map toChatMsg) ∧
    (dmConversationHistory fetched eventTs).length ≤ fetched.length ∧
    (fetched.length ≤ 10 → (dmConversationHistory fetched eventTs).length ≤ 10) ∧
    (∀ c ∈ dmConversationHistory fetched eventTs, ∃ m ∈ fetched,
      m.ts ≠ eventTs ∧ c.content = m.text ∧
      (c.role = .assistant ↔ jsTruthyStr m.bot_id = true)) ∧
    (dmConversationHistory fetched eventTs).reverse.Sublist (fetched.map toChatMsg) := by
  have hlen : (getConversationHistory fetched threadTs).length ≤ fetched.length := by
    simp only [getConversationHistory, List.length_map]
    exact List.length_filter_le _ _
  have hdlen : (dmConversationHistory fetched eventTs).length ≤ fetched.length := by
    simp only [dmConversationHistory, List.length_reverse, List.length_map]
    exact List.length_filter_le _ _
  refine ⟨hlen, fun h => Nat.le_trans hlen h, ?_, ?_, hdlen,
    fun h => Nat.le_trans hdlen h, ?_, ?_⟩
  · intro c hc
    exact mem_window_origin hc
  · exact List.Sublist.map toChatMsg (List.filter_sublist fetched)
  · intro c hc
    exact mem_window_origin (List.mem_reverse.mp hc)
  · simp only [dmConversationHistory, List.reverse_reverse]
    exact List.Sublist.map toChatMsg (List.filter_sublist fetched)

/-- C5 (witness): instantiation at the concrete three-message thread fetch. -/
theorem conversation_window_properties_witness :
    (getConversationHistory threadFetch threadRoot.ts).length ≤ 20 ∧
    (dmConversationHistory threadFetch triggeringMsg.ts).length ≤ 10 :=
  ⟨(conversation_window_properties threadFetch threadRoot.ts triggeringMsg.ts).2.1
      (by decide),
    (conversation_window_properties threadFetch threadRoot.ts
      triggeringMsg.ts).2.2.2.2.2.1 (by decide)⟩

/-- C3 (counterexample): on the message `"create lead for Jane Doe at Acme
with email jane@acme.com"`, the name regex's lazy group only stops where the
tail `\s+with\s+email` begins, capturing `"Jane Doe at Acme"`, and the company
regex anchors at the same `for` (its `(?:company|at|for)` alternation has no
word boundaries), so extraction does *not* yield `LastName = "Doe"` and
`Company = "Acme"`. -/
theorem lead_extraction_spec_values_refuted :
    (extractLeadData "create lead for Jane Doe at Acme with email jane@acme.com").LastName
      ≠ "Doe" ∧
    (extractLeadData "create lead for Jane Doe at Acme with email jane@acme.com").Company
      ≠ "Acme" :=
  ⟨by decide, by decide⟩

/-- C3 (amended): on the Jane Doe message, extraction yields
`FirstName = "Jane"`, `LastName = "Doe at Acme"`, `Company = "Jane Doe at
Acme"`, `Email = "jane@acme.com"`; on `"create a lead"` with no further
detail, the defaults `LastName = "Lead from Slack"` and
`Company = "Unknown Company"` are used. -/
theorem lead_extraction_values :
    extractLeadData "create lead for Jane Doe at Acme with email jane@acme.com" =
      { FirstName := some "Jane", LastName := "Doe at Acme",
        Company := "Jane Doe at Acme", Email := some "jane@acme.com",
        Status := "Open - Not Contacted" } ∧
    extractLeadData "create a lead" =
      { FirstName := none, LastName := "Lead from Slack",
        Company := "Unknown Company", Email := none,
        Status := "Open - Not Contacted" } :=
  ⟨by decide, by decide⟩

/-- C6 (counterexample): the catch-all of `callGrokAPI` rethrows the fixed
message `'Failed to get AI response'`; the provider's error body is logged but
*not* carried by the surfaced error. -/
theorem completion_error_drops_provider_body :
    (callGrokCompletion (.httpError "upstream 500: model overloaded")).1 =
      .error "Failed to get AI response" ∧
    strIncludes "Failed to get AI response" "upstream 500: model overloaded" = false :=
  ⟨rfl, by decide⟩

/-- C6 (amended): the Completion Client issues exactly one HTTP call per turn
(no retry); any transport/non-2xx failure or unusable 2xx body surfaces as an
error with the fixed message `'Failed to get AI response'` (not the provider's
body), and the `app_mention` handler converts that failure into the
user-visible apology text rather than crashing. -/
theorem completion_single_call_and_apology (outcome : GrokOutcome) :
    (callGrokCompletion outcome).2 = 1 ∧
    (∀ body, outcome = .httpError body →
      (callGrokCompletion outcome).1 = .error "Failed to get AI response" ∧
      mentionReply (callGrokCompletion outcome).1 =
        "Sorry, I encountered an error: Failed to get AI response. Please try again.") ∧
    (outcome = .malformedBody →
      (callGrokCompletion outcome).1 = .error "Failed to get AI response") := by
  refine ⟨?_, ?_, ?_⟩
  · cases outcome <;> rfl
  · rintro body rfl
    exact ⟨rfl, rfl⟩
  · rintro rfl
    rfl

/-- C6 (witness): instantiation at a concrete failed call. -/
theorem completion_single_call_and_apology_witness :
    (callGrokCompletion (.httpError "rate limited")).2 = 1 ∧
    (callGrokCompletion (.httpError "rate limited")).1 =
      .error "Failed to get AI response" ∧
    mentionReply (callGrokCompletion (.httpError "rate limited")).1 =
      "Sorry, I encountered an error: Failed to get AI response. Please try again." :=
  ⟨(completion_single_call_and_apology (.httpError "rate limited")).1,
    ((completion_single_call_and_apology (.httpError "rate limited")).2.1
      "rate limited" rfl).1,
    ((completion_single_call_and_apology (.httpError "rate limited")).2.1
      "rate limited" rfl).2⟩

/-- C7 (counterexample): text that does not parse as JSON — certainly
"syntactically invalid as a structured payload" — is delivered as plain text
*silently*: no diagnostic notice is appended. -/
theorem unparseable_payload_delivered_silently :
    jsonParse "hello world" = none ∧
    sendKeyPhraseResponse "hello world" = [.plain "hello world"] ∧
    ¬ hasDiagnostic (sendKeyPhraseResponse "hello world") := by
  refine ⟨rfl, rfl, ?_⟩
  rintro ⟨m, hm, t, hmt, hinc⟩
  have hm' : m = SentMessage.plain "hello world" := List.mem_singleton.mp hm
  subst hm'
  injection hmt with ht
  subst ht
  exact absurd hinc (by decide)

/-- C7 (amended): delivery parses `responseText` opportunistically.  A JSON
array passing Block Kit validation is rendered as blocks; a JSON array failing
validation *with a returned error* is delivered as the diagnostic notice
followed by the raw text; an object with a `blocks` array behaves the same way
(with its `text` property as the fallback text).  Everything else is delivered
as the raw plain text with nothing appended: unparseable text, other JSON
shapes, and also a candidate structure containing a JSON `null` block, whose
validation throws a `TypeError` that the inner catch swallows. -/
theorem delivery_parse_behavior (s : String) :
    (jsonParse s = none → sendKeyPhraseResponse s = [.plain s]) ∧
    (∀ blocks, jsonParse s = some (.jarr blocks) →
      (validateBlockKitStructure (.jarr blocks) = .error () →
        sendKeyPhraseResponse s = [.plain s]) ∧
      (∀ validation, validateBlockKitStructure (.jarr blocks) = .ok validation →
        (validation.valid = true →
          sendKeyPhraseResponse s = [.withBlocks "Response" blocks]) ∧
        (validation.valid = false →
          sendKeyPhraseResponse s =
            [.plain (invalidBlockKitNotice validation.error), .plain s] ∧
          hasDiagnostic (sendKeyPhraseResponse s)))) ∧
    (∀ fields blocks, jsonParse s = some (.jobj fields) →
      lookupLast fields "blocks" = some (.jarr blocks) →
      (validateBlockKitStructure (.jarr blocks) = .error () →
        sendKeyPhraseResponse s = [.plain s]) ∧
      (∀ validation, validateBlockKitStructure (.jarr blocks) = .ok validation →
        (validation.valid = false →
          sendKeyPhraseResponse s =
            [.plain (invalidBlockKitNotice validation.error), .plain s] ∧
          hasDiagnostic (sendKeyPhraseResponse s)) ∧
        (validation.valid = true →
          ∃ text, sendKeyPhraseResponse s = [.withBlocks text blocks]))) ∧
    (∀ v, jsonParse s = some v → isStructCandidate v = false →
      sendKeyPhraseResponse s = [.plain s]) := by
  have hdiag : ∀ e rest, hasDiagnostic (.plain (invalidBlockKitNotice e) :: rest) := by
    intro e rest
    refine ⟨.plain (invalidBlockKitNotice e), List.mem_cons_self _ _, invalidBlockKitNotice e,
      rfl, ?_⟩
    cases e <;> simp [invalidBlockKitNotice, strIncludes, listContainsSeq, jsShowOpt]
  refine ⟨fun h => ?_,
    fun blocks h => ⟨fun he => ?_, fun validation hok => ⟨fun hv => ?_, fun hv => ?_⟩⟩,
    fun fields blocks h hb => ⟨fun he => ?_, fun validation hok => ⟨fun hv => ?_, fun hv => ?_⟩⟩,
    fun v h hv => ?_⟩
  · simp only [sendKeyPhraseResponse, h]
  · simp only [sendKeyPhraseResponse, h, he]
  · simp only [sendKeyPhraseResponse, h, hok, hv, if_true]
  · have hd : sendKeyPhraseResponse s =
        [.plain (invalidBlockKitNotice validation.error), .plain s] := by
      simp only [sendKeyPhraseResponse, h, hok, hv]
      simp
    refine ⟨hd, ?_⟩
    rw [hd]
    exact hdiag _ _
  · simp only [sendKeyPhraseResponse, h, getField, hb, he]
  · have hd : sendKeyPhraseResponse s =
        [.plain (invalidBlockKitNotice validation.error), .plain s] := by
      simp only [sendKeyPhraseResponse, h, getField, hb, hok, hv]
      simp
    refine ⟨hd, ?_⟩
    rw [hd]
    exact hdiag _ _
  · refine ⟨(match lookupLast fields "text" with
      | some tv => if truthy tv then jsToString tv else "Response"
      | none => "Response"), ?_⟩
    simp only [sendKeyPhraseResponse, h, getField, hb, hok, hv, if_true]
  · match v, hv with
    | .jnull, _ => simp only [sendKeyPhraseResponse, h]
    | .jbool b, _ => simp only [sendKeyPhraseResponse, h]
    | .jnum raw, _ => simp only [sendKeyPhraseResponse, h]
    | .jstr str, _ => simp only [sendKeyPhraseResponse, h]
    | .jobj fields, hv =>
      simp only [sendKeyPhraseResponse, h, getField]
      simp only [isStructCandidate] at hv
      match hblk : lookupLast fields "blocks" with
      | none => simp
      | some .jnull => simp
      | some (.jbool b) => simp
      | some (.jnum raw) => simp
      | some (.jstr str) => simp
      | some (.jarr bs) => rw [hblk] at hv; simp at hv
      | some (.jobj fs) => simp

/-- C7 (witness): instantiation at concrete payloads — `[null]` makes
validation throw and is delivered as plain text with no diagnostic, a
bad-type block array produces the diagnostic plus fallback, a valid divider
renders as blocks, and a plain JSON object with no `blocks` array falls
through to plain text. -/
theorem delivery_parse_behavior_witness :
    sendKeyPhraseResponse "[null]" = [.plain "[null]"] ∧
    sendKeyPhraseResponse "[\x7b\"type\":\"bogus\"\x7d]" =
      [.plain (invalidBlockKitNotice (some ("Block 1 has invalid type 'bogus'. " ++
          "Valid types: " ++ String.intercalate ", " validBlockTypes))),
        .plain "[\x7b\"type\":\"bogus\"\x7d]"] ∧
    sendKeyPhraseResponse "[\x7b\"type\":\"divider\"\x7d]" =
      [.withBlocks "Response" [.jobj [("type", .jstr "divider")]]] ∧
    sendKeyPhraseResponse "\x7b\"a\":1\x7d" = [.plain "\x7b\"a\":1\x7d"] :=
  ⟨((delivery_parse_behavior "[null]").2.1 [.jnull] rfl).1 rfl,
    ((((delivery_parse_behavior "[\x7b\"type\":\"bogus\"\x7d]").2.1
      [.jobj [("type", .jstr "bogus")]] rfl).2
      { valid := false,
        error := some ("Block 1 has invalid type 'bogus'. " ++
          "Valid types: " ++ String.intercalate ", " validBlockTypes) } rfl).2 rfl).1,
    ((((delivery_parse_behavior "[\x7b\"type\":\"divider\"\x7d]").2.1
      [.jobj [("type", .jstr "divider")]] rfl).2 { valid := true } rfl).1 rfl),
    (delivery_parse_behavior "\x7b\"a\":1\x7d").2.2.2 (.jobj [("a", .jnum "1")]) rfl rfl⟩

/-- C2 (counterexample): an opportunity creation — a structured side-effecting
CRM action — that fails with `INVALID_SESSION_ID` on its first attempt is
surfaced directly: the pipeline performs *zero* token refreshes and zero
retries (only the lead branch has refresh-retry logic). -/
theorem opportunity_expired_session_no_refresh :
    errIncludesInvalidSession
      (expiredWorld.createOpportunity storedTokens.access_token).error = true ∧
    (handleSalesforceRequest expiredWorld "create opportunity Big Deal" storedTokens []).2 =
      [.createOpportunityCall "t-old"] ∧
    countRefresh
      (handleSalesforceRequest expiredWorld "create opportunity Big Deal"
        storedTokens []).2 = 0 ∧
    (handleSalesforceRequest expiredWorld "create opportunity Big Deal" storedTokens []).1 =
      some "❌ Failed to create opportunity: INVALID_SESSION_ID: Session expired or invalid" :=
  ⟨by decide, by decide, by decide, by decide⟩

/-- C2 (amended): only lead creation refreshes.  A lead creation failing with
`INVALID_SESSION_ID` when a refresh token is stored performs exactly one
refresh; if the refresh fails, no retry happens and the fixed reconnect error
is final; if the refresh succeeds, exactly one retry runs with the refreshed
access token and its result — success or failure — is final.  Every other CRM
action path performs zero refreshes. -/
theorem lead_refresh_retry_policy :
    (∀ (w : SFWorld) (d : LeadData) (tk : SFTokens) (rt : String),
      tk.refresh_token = some rt → rt ≠ "" →
      (w.createLead d tk.access_token).success = false →
      errIncludesInvalidSession (w.createLead d tk.access_token).error = true →
      countRefresh (createLeadWithRefresh w d tk).2 = 1 ∧
      (∀ e, w.refreshRaw = .error e →
        countLeadCalls (createLeadWithRefresh w d tk).2 = 1 ∧
        (createLeadWithRefresh w d tk).1 =
          { success := false,
            error := some "Token expired and refresh failed. Please reconnect your Salesforce integration." }) ∧
      (∀ raw, w.refreshRaw = .ok raw →
        countLeadCalls (createLeadWithRefresh w d tk).2 = 2 ∧
        (createLeadWithRefresh w d tk).1 = w.createLead d raw.access_token)) ∧
    (∀ (w : SFWorld) (msg : String) (tk : SFTokens) (hist : List ChatMsg),
      leadBranchCond msg hist = false →
      countRefresh (handleSalesforceRequest w msg tk hist).2 = 0) := by
  constructor
  · intro w d tk rt h1 h2 h3 h4
    have hcond : (errIncludesInvalidSession (w.createLead d tk.access_token).error &&
        jsTruthyStr tk.refresh_token) = true := by
      rw [h4, h1]
      simp [jsTruthyStr, h2]
    rcases hraw : w.refreshRaw with e | raw
    · have hunf : createLeadWithRefresh w d tk =
          ({ success := false,
             error := some "Token expired and refresh failed. Please reconnect your Salesforce integration." },
            [.createLeadCall tk.access_token, .refreshCall]) := by
        simp only [createLeadWithRefresh, h3, Bool.false_eq_true, if_false, hcond, if_true,
          refreshTokenService, hraw]
      rw [hunf]
      refine ⟨by simp [countRefresh], fun e' _ => ⟨by simp [countLeadCalls], rfl⟩,
        fun raw' hraw' => ?_⟩
      cases hraw'
    · refine ⟨?_, fun e' he' => ?_, fun raw' hraw' => ?_⟩
      · simp only [createLeadWithRefresh, h3, Bool.false_eq_true, if_false, hcond, if_true,
          refreshTokenService, hraw]
        simp [countRefresh]
      · cases he'
      · cases hraw'
        constructor
        · simp only [createLeadWithRefresh, h3, Bool.false_eq_true, if_false, hcond, if_true,
            refreshTokenService, hraw]
          simp [countLeadCalls]
        · simp only [createLeadWithRefresh, h3, Bool.false_eq_true, if_false, hcond, if_true,
            refreshTokenService, hraw]
  · intro w msg tk hist h
    simp only [handleSalesforceRequest, h, Bool.false_eq_true, if_false]
    split_ifs <;> simp [countRefresh]

/-- C2 (witness): at the concrete expired-session world, lead creation does
one refresh and one retry (which succeeds with the refreshed token), and the
opportunity path does zero refreshes. -/
theorem lead_refresh_retry_policy_witness :
    countRefresh (createLeadWithRefresh expiredWorld sampleLead storedTokens).2 = 1 ∧
    countLeadCalls (createLeadWithRefresh expiredWorld sampleLead storedTokens).2 = 2 ∧
    (createLeadWithRefresh expiredWorld sampleLead storedTokens).1 =
      expiredWorld.createLead sampleLead "t-new" ∧
    countRefresh
      (handleSalesforceRequest expiredWorld "create opportunity Big Deal"
        storedTokens []).2 = 0 :=
  ⟨(lead_refresh_retry_policy.1 expiredWorld sampleLead storedTokens "r0" rfl
      (by decide) (by decide) (by decide)).1,
    ((lead_refresh_retry_policy.1 expiredWorld sampleLead storedTokens "r0" rfl
      (by decide) (by decide) (by decide)).2.2
      { access_token := "t-new", instance_url := some "https://org",
        refresh_token := none } rfl).1,
    ((lead_refresh_retry_policy.1 expiredWorld sampleLead storedTokens "r0" rfl
      (by decide) (by decide) (by decide)).2.2
      { access_token := "t-new", instance_url := some "https://org",
        refresh_token := none } rfl).2,
    lead_refresh_retry_policy.2 expiredWorld "create opportunity Big Deal"
      storedTokens [] (by decide)⟩

end DevBot
